import Mathlib

/-!
# Verification of the receipt-allocation / invoice-settlement subsystem

Shallow embedding of the billing backend's core endpoints:

* `app/api/v1/endpoints/invoices.py`      (totals calculator, settlement resolver,
                                           create/update/delete/list invoice)
* `app/api/v1/endpoints/receipts.py`      (receipt allocator, `create_receipt`)
* `app/api/v1/endpoints/credit_notes.py`  (credit note issuer, `create_credit_note`)
* `app/api/v1/endpoints/helpers.py`       (next-number preview endpoints)
* `app/models/receipt.py`, `app/models/invoice.py`, `app/models/credit_note.py`
                                          (column declarations)

Monetary values are embedded as exact rationals (`ℚ`); Python's `round(x, 2)`
is embedded as round-half-to-even at two decimal places, which is Python 3's
documented rounding mode.  The database session is embedded as an explicit
`Store` value threaded through each handler; a raised `HTTPException` (or a
Python `AttributeError`) becomes an `Except.error`, and since every handler
commits only at its very end, an error leaves the store unchanged, matching
the all-or-nothing transaction semantics.
-/

namespace Billing

/-- Round-half-to-even to an integer (Python's `round` on an exact value). -/
def roundHalfEven (x : ℚ) : ℤ :=
  let f : ℤ := ⌊x⌋
  let r : ℚ := x - f
  if r < 1/2 then f
  else if 1/2 < r then f + 1
  else if f % 2 = 0 then f else f + 1

/-- Python's `round(x, 2)`: round to two decimal places, ties to even. -/
def pyRound2 (x : ℚ) : ℚ := (roundHalfEven (x * 100) : ℚ) / 100

/-- Calendar date (year, month, day). -/
structure Date where
  year : ℤ
  month : ℤ
  day : ℤ
deriving DecidableEq, Repr

/-- Lexicographic strict order on dates (`date < date` in Python). -/
def dateLt (a b : Date) : Bool :=
  if a.year < b.year then true
  else if b.year < a.year then false
  else if a.month < b.month then true
  else if b.month < a.month then false
  else decide (a.day < b.day)

/-- `a <= b` on dates. -/
def dateLe (a b : Date) : Bool := !dateLt b a

/-- `{n:04d}`: decimal digits, left-padded with zeros to width 4. -/
def pad4 (n : ℕ) : String :=
  let s := toString n
  String.mk (List.replicate (4 - s.length) '0') ++ s

/-! ## Data model (`app/models/*.py`)

Rows carry the columns the core logic reads or writes; primary keys are
natural numbers standing in for UUIDs, and `updatedAt` is an abstract tick
standing in for the touched timestamp. -/

/-- `customers` row (the fields the core reads). -/
structure Customer where
  id : ℕ
  tenantId : ℕ
  name : String
deriving DecidableEq, Repr

/-- `service_types` row (the fields the core reads). -/
structure ServiceType where
  id : ℕ
  tenantId : ℕ
deriving DecidableEq, Repr

/-- `invoices` row (`app/models/invoice.py`, class `Invoice`).
`status` is the stored column with default `"draft"`. -/
structure Invoice where
  id : ℕ
  tenantId : ℕ
  invoiceNumber : String
  invoiceDate : Date
  dueDate : Date
  customerId : ℕ
  subtotal : ℚ
  taxTotal : ℚ
  total : ℚ
  status : String
  updatedAt : ℕ
deriving DecidableEq, Repr

/-- `invoice_line_items` row (`app/models/invoice.py`, class `InvoiceLineItem`). -/
structure InvoiceLineItem where
  id : ℕ
  tenantId : ℕ
  invoiceId : ℕ
  serviceTypeId : ℕ
  quantity : ℚ
  rate : ℚ
  amount : ℚ
  taxRate : ℚ
  taxAmount : ℚ
  total : ℚ
deriving DecidableEq, Repr

/-- `receipts` row (`app/models/receipt.py`, class `Receipt`). -/
structure Receipt where
  id : ℕ
  tenantId : ℕ
  receiptNumber : String
  receiptDate : Date
  customerId : ℕ
  paymentMethod : String
  amount : ℚ
  status : String
deriving DecidableEq, Repr

/-- `receipt_allocations` row (`app/models/receipt.py`, class `ReceiptAllocation`).
Its only monetary column is `allocated_amount`. -/
structure ReceiptAllocation where
  id : ℕ
  tenantId : ℕ
  receiptId : ℕ
  invoiceId : ℕ
  allocatedAmount : ℚ
deriving DecidableEq, Repr

/-- `credit_notes` row (`app/models/credit_note.py`, class `CreditNote`). -/
structure CreditNote where
  id : ℕ
  tenantId : ℕ
  creditNoteNumber : String
  creditNoteDate : Date
  customerId : ℕ
  invoiceId : Option ℕ
  amount : ℚ
  gstRate : ℚ
  gstAmount : ℚ
  totalCredit : ℚ
  status : String
deriving DecidableEq, Repr

/-- The relational store.  `nextId` is the fresh-primary-key supply standing in
for `uuid4()`. -/
structure Store where
  customers : List Customer
  serviceTypes : List ServiceType
  invoices : List Invoice
  lineItems : List InvoiceLineItem
  receipts : List Receipt
  allocations : List ReceiptAllocation
  creditNotes : List CreditNote
  nextId : ℕ
deriving DecidableEq, Repr

/-- The monetary column of the `receipt_allocations` model resolved by name:
the class in `app/models/receipt.py` declares `allocated_amount` and no other
monetary column — in particular it declares NO column named `amount`, so a
Python attribute access `ReceiptAllocation.amount` raises `AttributeError`. -/
def receiptAllocationMoneyColumn (name : String) : Option (ReceiptAllocation → ℚ) :=
  if name == "allocated_amount" then some (fun a => a.allocatedAmount) else none

/-- Error taxonomy: `validation`/`conflict`/`notFound`/`forbidden` embed
`HTTPException`s with status 400/409/404/403; `attributeError` embeds a Python
`AttributeError` escaping the handler (HTTP 500). -/
inductive ApiError where
  | validation (msg : String)
  | conflict (msg : String)
  | notFound (msg : String)
  | forbidden (msg : String)
  | attributeError (msg : String)
deriving DecidableEq, Repr

/-- `SUM(allocated_amount) ... WHERE invoice_id = :id` (`or 0` on empty). -/
def sumAllocationsForInvoice (st : Store) (invoiceId : ℕ) : ℚ :=
  ((st.allocations.filter (fun a => a.invoiceId == invoiceId)).map
    (fun a => a.allocatedAmount)).sum

/-- `SUM(total_credit) ... WHERE invoice_id = :id AND status != 'Cancelled'`
(`or Decimal('0')` on empty), from `create_credit_note`. -/
def sumNonCancelledCredits (st : Store) (invoiceId : ℕ) : ℚ :=
  ((st.creditNotes.filter
      (fun cn => cn.invoiceId == some invoiceId && cn.status != "Cancelled")).map
    (fun cn => cn.totalCredit)).sum

/-- `calculate_invoice_status` (`invoices.py` lines 48-61): derive the
settlement status from the allocation sum, the total and the due date. -/
def calculate_invoice_status (st : Store) (inv : Invoice) (today : Date) : String :=
  let total_allocated := sumAllocationsForInvoice st inv.id
  if total_allocated ≥ inv.total then "Paid"
  else if dateLt inv.dueDate today then "Overdue"
  else "Pending"

/-! ## Receipt allocator (`app/api/v1/endpoints/receipts.py`) -/

/-- One entry of `payload.allocations` (`ReceiptAllocationCreate`). -/
structure AllocationCreate where
  invoiceId : ℕ
  amountAllocated : ℚ
deriving DecidableEq, Repr

/-- `ReceiptCreate` payload. -/
structure ReceiptCreatePayload where
  receiptId : Option String
  receiptDate : Date
  customerId : ℕ
  paymentMethod : String
  amountReceived : ℚ
  allocations : List AllocationCreate
  notes : Option String
deriving DecidableEq, Repr

/-- The pydantic validators of `ReceiptCreate` / `ReceiptAllocationCreate`
(`app/schemas/receipt.py`): allocation amounts ≥ 0.01, receipt date not in the
future, payment method in the enum, amount received ≥ 1, allocations
non-empty. -/
def receiptCreateValid (today : Date) (p : ReceiptCreatePayload) : Bool :=
  p.allocations.all (fun a => (1 : ℚ)/100 ≤ a.amountAllocated) &&
  dateLe p.receiptDate today &&
  (["bank_transfer", "cheque", "cash", "upi", "card"].contains p.paymentMethod) &&
  (1 : ℚ) ≤ p.amountReceived &&
  decide (0 < p.allocations.length)

/-- The invoice lookup of `create_receipt`: the payload's invoice must exist,
belong to the paying customer and to the tenant (ids are primary keys, so the
SQL `IN`-query count check `len(invoices) != len(set(invoice_ids))` is
equivalent to every referenced id resolving under these filters). -/
def findInvoiceFor (st : Store) (tenantId customerId invoiceId : ℕ) : Option Invoice :=
  st.invoices.find? (fun i =>
    i.id == invoiceId && i.customerId == customerId && i.tenantId == tenantId)

/-- The validation loop of `create_receipt` (`receipts.py` lines 242-263):
for each allocation in order, `outstanding` is the invoice total minus the sum
of the allocations already in the store (the map built before the loop — it is
NOT updated as the loop accumulates `total_allocated`); returns the
accumulated `total_allocated` on success. -/
def validateAllocations (st : Store) (tenantId customerId : ℕ) :
    List AllocationCreate → Except ApiError ℚ
  | [] => .ok 0
  | a :: rest =>
    match findInvoiceFor st tenantId customerId a.invoiceId with
    | none => .error (.validation
        "One or more invoices not found or do not belong to this customer")
    | some inv =>
      let existing_paid := sumAllocationsForInvoice st a.invoiceId
      let outstanding := inv.total - existing_paid
      if outstanding ≤ 0 then
        .error (.validation ("Invoice " ++ inv.invoiceNumber ++ " is already fully paid"))
      else if outstanding < a.amountAllocated then
        .error (.validation ("Allocation amount exceeds outstanding amount for invoice "
          ++ inv.invoiceNumber))
      else
        match validateAllocations st tenantId customerId rest with
        | .error e => .error e
        | .ok t => .ok (a.amountAllocated + t)

/-- Receipt-number resolution in `create_receipt` (lines 272-291): a
caller-supplied number must be unique per tenant (409 otherwise); otherwise
`RCT-{year}-{count:04d}` where `year` is the receipt date's year and `count`
is 1 + the number of ALL the tenant's existing receipts. -/
def resolveReceiptNumber (st : Store) (tenantId : ℕ) (p : ReceiptCreatePayload) :
    Except ApiError String :=
  match p.receiptId with
  | some rid =>
    if st.receipts.any (fun r => r.tenantId == tenantId && r.receiptNumber == rid) then
      .error (.conflict "Receipt ID already exists")
    else .ok rid
  | none =>
    .ok ("RCT-" ++ toString p.receiptDate.year ++ "-"
      ++ pad4 ((st.receipts.filter (fun r => r.tenantId == tenantId)).length + 1))

/-- The insertion loop of `create_receipt` (lines 315-334): one
`ReceiptAllocation` row per payload allocation, in order, each with a fresh
primary key. -/
def mkAllocations (tenantId receiptId : ℕ) : ℕ → List AllocationCreate → List ReceiptAllocation
  | _, [] => []
  | k, a :: rest =>
    { id := k
      tenantId := tenantId
      receiptId := receiptId
      invoiceId := a.invoiceId
      allocatedAmount := a.amountAllocated } :: mkAllocations tenantId receiptId (k + 1) rest

/-- `create_receipt` (`receipts.py` lines 191-350): verify the customer, the
referenced invoices, the per-invoice outstanding amounts and the request
total, resolve the receipt number, then persist the receipt and one
allocation row per payload entry in a single transaction, touching each
referenced invoice's `updated_at`. -/
def create_receipt (st : Store) (tenantId _userId now : ℕ) (p : ReceiptCreatePayload) :
    Except ApiError (Store × Receipt) :=
  match st.customers.find? (fun c => c.id == p.customerId && c.tenantId == tenantId) with
  | none => .error (.validation "Invalid customer")
  | some _customer =>
    if p.allocations.any
        (fun a => (findInvoiceFor st tenantId p.customerId a.invoiceId).isNone) then
      .error (.validation "One or more invoices not found or do not belong to this customer")
    else
      match validateAllocations st tenantId p.customerId p.allocations with
      | .error e => .error e
      | .ok total_allocated =>
        if p.amountReceived < total_allocated then
          .error (.validation "Total allocations exceed amount received")
        else
          match resolveReceiptNumber st tenantId p with
          | .error e => .error e
          | .ok receipt_number =>
            let receiptId := st.nextId
            let receipt : Receipt :=
              { id := receiptId
                tenantId := tenantId
                receiptNumber := receipt_number
                receiptDate := p.receiptDate
                customerId := p.customerId
                paymentMethod := p.paymentMethod
                amount := p.amountReceived
                status := "Completed" }
            let newAllocations := mkAllocations tenantId receiptId (receiptId + 1) p.allocations
            let touched : List ℕ := p.allocations.map (fun a => a.invoiceId)
            let st' : Store :=
              { st with
                receipts := st.receipts ++ [receipt]
                allocations := st.allocations ++ newAllocations
                invoices := st.invoices.map (fun i =>
                  if touched.contains i.id then { i with updatedAt := now } else i)
                nextId := st.nextId + 1 + p.allocations.length }
            .ok (st', receipt)

/-! ## Invoice endpoints (`app/api/v1/endpoints/invoices.py`) -/

/-- One entry of `payload.lineItems` (`InvoiceLineItemCreate`). -/
structure LineItemCreate where
  serviceType : ℕ
  quantity : ℚ
  rate : ℚ
  taxRate : ℚ
deriving DecidableEq, Repr

/-- `InvoiceCreate` payload (`InvoiceUpdate` has the same shape). -/
structure InvoiceCreatePayload where
  invoiceNumber : Option String
  invoiceDate : Date
  customerId : ℕ
  dueDate : Date
  lineItems : List LineItemCreate
  notes : Option String
deriving DecidableEq, Repr

/-- The derived amounts of one line item. -/
structure LineItemAmounts where
  amount : ℚ
  taxAmount : ℚ
  total : ℚ
deriving DecidableEq, Repr

/-- `calculate_line_item_amounts` (`invoices.py` lines 35-45): the raw
`amount`, `tax_amount` and their raw sum are each rounded to 2 decimal
places separately — `total` is `round(raw_amount + raw_tax, 2)`, not the sum
of the two rounded fields. -/
def calculate_line_item_amounts (li : LineItemCreate) : LineItemAmounts :=
  let amount := li.quantity * li.rate
  let tax_amount := amount * (li.taxRate / 100)
  let total := amount + tax_amount
  { amount := pyRound2 amount
    taxAmount := pyRound2 tax_amount
    total := pyRound2 total }

/-- Invoice-number resolution in `create_invoice` (lines 337-356): caller
number unique per tenant (409 otherwise), else `INV-{year}-{count:04d}` with
`count` = 1 + the number of ALL the tenant's existing invoices. -/
def resolveInvoiceNumber (st : Store) (tenantId : ℕ) (p : InvoiceCreatePayload) :
    Except ApiError String :=
  match p.invoiceNumber with
  | some n =>
    if st.invoices.any (fun i => i.tenantId == tenantId && i.invoiceNumber == n) then
      .error (.conflict "Invoice number already exists")
    else .ok n
  | none =>
    .ok ("INV-" ++ toString p.invoiceDate.year ++ "-"
      ++ pad4 ((st.invoices.filter (fun i => i.tenantId == tenantId)).length + 1))

/-- The insertion loop over line items (lines 393-410): one
`InvoiceLineItem` row per draft, with the amounts from
`calculate_line_item_amounts`, each with a fresh primary key. -/
def mkLineItems (tenantId invoiceId : ℕ) : ℕ → List LineItemCreate → List InvoiceLineItem
  | _, [] => []
  | k, li :: rest =>
    let am := calculate_line_item_amounts li
    { id := k
      tenantId := tenantId
      invoiceId := invoiceId
      serviceTypeId := li.serviceType
      quantity := li.quantity
      rate := li.rate
      amount := am.amount
      taxRate := li.taxRate
      taxAmount := am.taxAmount
      total := am.total } :: mkLineItems tenantId invoiceId (k + 1) rest

/-- `subtotal = sum(amounts['amount'])` over the drafts (line 368). -/
def invoiceSubtotal (items : List LineItemCreate) : ℚ :=
  (items.map (fun li => (calculate_line_item_amounts li).amount)).sum

/-- `tax_total = sum(amounts['tax_amount'])` over the drafts (line 369). -/
def invoiceTaxTotal (items : List LineItemCreate) : ℚ :=
  (items.map (fun li => (calculate_line_item_amounts li).taxAmount)).sum

/-- `create_invoice` (`invoices.py` lines 299-425): verify customer and
service types, resolve the number, compute the totals from the line items and
persist the invoice plus its line items in one transaction.  The `Invoice`
row is constructed without a `status` argument, so the stored `status` column
takes the model's default `"draft"`. -/
def create_invoice (st : Store) (tenantId _userId now : ℕ) (p : InvoiceCreatePayload) :
    Except ApiError (Store × Invoice) :=
  match st.customers.find? (fun c => c.id == p.customerId && c.tenantId == tenantId) with
  | none => .error (.validation "Invalid customer")
  | some _customer =>
    if p.lineItems.any (fun li =>
        (st.serviceTypes.find? (fun s =>
          s.id == li.serviceType && s.tenantId == tenantId)).isNone) then
      .error (.validation "Invalid service type")
    else
      match resolveInvoiceNumber st tenantId p with
      | .error e => .error e
      | .ok invoice_number =>
        let subtotal := invoiceSubtotal p.lineItems
        let tax_total := invoiceTaxTotal p.lineItems
        let total := subtotal + tax_total
        let invoiceId := st.nextId
        let inv : Invoice :=
          { id := invoiceId
            tenantId := tenantId
            invoiceNumber := invoice_number
            invoiceDate := p.invoiceDate
            dueDate := p.dueDate
            customerId := p.customerId
            subtotal := subtotal
            taxTotal := tax_total
            total := total
            status := "draft"
            updatedAt := now }
        let st' : Store :=
          { st with
            invoices := st.invoices ++ [inv]
            lineItems := st.lineItems ++ mkLineItems tenantId invoiceId (invoiceId + 1) p.lineItems
            nextId := st.nextId + 1 + p.lineItems.length }
        .ok (st', inv)

/-- `update_invoice` (`invoices.py` lines 428-575).  Its very first check
after the invoice lookup evaluates `func.sum(ReceiptAllocation.amount)`
(line 452); the `receipt_allocations` model declares no column `amount`, so
this attribute access raises `AttributeError` and the handler can never reach
the update itself.  The remainder is embedded faithfully below the column
lookup even though it is unreachable. -/
def update_invoice (st : Store) (tenantId invoiceId now : ℕ) (p : InvoiceCreatePayload) :
    Except ApiError (Store × Invoice) :=
  match st.invoices.find? (fun i => i.id == invoiceId && i.tenantId == tenantId) with
  | none => .error (.notFound "Invoice not found")
  | some inv =>
    match receiptAllocationMoneyColumn "amount" with
    | none => .error (.attributeError
        "type object ReceiptAllocation has no attribute amount")
    | some col =>
      let total_allocated :=
        ((st.allocations.filter (fun a => a.invoiceId == invoiceId)).map col).sum
      if total_allocated ≥ inv.total then
        .error (.forbidden "Cannot edit paid invoices")
      else if 0 < (st.allocations.filter (fun a => a.invoiceId == invoiceId)).length then
        .error (.forbidden "Cannot edit invoices with receipts allocated")
      else
        match st.customers.find? (fun c =>
            c.id == p.customerId && c.tenantId == tenantId) with
        | none => .error (.validation "Invalid customer")
        | some _customer =>
          if p.lineItems.any (fun li =>
              (st.serviceTypes.find? (fun s =>
                s.id == li.serviceType && s.tenantId == tenantId)).isNone) then
            .error (.validation "Invalid service type")
          else if (match p.invoiceNumber with
              | some n => n != inv.invoiceNumber &&
                  st.invoices.any (fun i =>
                    i.tenantId == tenantId && i.id != invoiceId && i.invoiceNumber == n)
              | none => false) then
            .error (.conflict "Invoice number already exists")
          else
            let subtotal := invoiceSubtotal p.lineItems
            let tax_total := invoiceTaxTotal p.lineItems
            let inv' : Invoice :=
              { inv with
                invoiceNumber := (match p.invoiceNumber with
                  | some n => n
                  | none => inv.invoiceNumber)
                invoiceDate := p.invoiceDate
                customerId := p.customerId
                dueDate := p.dueDate
                subtotal := subtotal
                taxTotal := tax_total
                total := subtotal + tax_total
                updatedAt := now }
            let st' : Store :=
              { st with
                invoices := st.invoices.map (fun i => if i.id == invoiceId then inv' else i)
                lineItems := (st.lineItems.filter (fun li => li.invoiceId != invoiceId))
                  ++ mkLineItems tenantId invoiceId st.nextId p.lineItems
                nextId := st.nextId + p.lineItems.length }
            .ok (st', inv')

/-- `delete_invoice` (`invoices.py` lines 578-635): 403 while any allocation
or credit note references the invoice, else delete line items and invoice. -/
def delete_invoice (st : Store) (tenantId invoiceId : ℕ) : Except ApiError Store :=
  match st.invoices.find? (fun i => i.id == invoiceId && i.tenantId == tenantId) with
  | none => .error (.notFound "Invoice not found")
  | some _inv =>
    if 0 < (st.allocations.filter (fun a => a.invoiceId == invoiceId)).length then
      .error (.forbidden "Cannot delete invoices with receipts")
    else if 0 < (st.creditNotes.filter (fun cn => cn.invoiceId == some invoiceId)).length then
      .error (.forbidden "Cannot delete invoices with credit notes")
    else
      .ok { st with
        lineItems := st.lineItems.filter (fun li => li.invoiceId != invoiceId)
        invoices := st.invoices.filter (fun i => i.id != invoiceId) }

/-- The fields of `build_invoice_response` (`invoices.py` lines 64-99) the
core is responsible for: the monetary totals come from the stored row and the
`status` field is recomputed by `calculate_invoice_status` on every read. -/
structure InvoiceResponseCore where
  subtotal : ℚ
  taxTotal : ℚ
  total : ℚ
  status : String
deriving DecidableEq, Repr

/-- `build_invoice_response` restricted to the core fields. -/
def build_invoice_response (st : Store) (inv : Invoice) (today : Date) :
    InvoiceResponseCore :=
  { subtotal := inv.subtotal
    taxTotal := inv.taxTotal
    total := inv.total
    status := calculate_invoice_status st inv today }

/-- The status filter of `list_invoices` (`invoices.py` lines 142-183.)
Each of the three status branches builds a subquery whose `HAVING` clause
evaluates `func.sum(ReceiptAllocation.amount)`; the model declares no column
`amount`, so the attribute access raises `AttributeError` before any row is
returned.  The branch below the column lookup gives the filter the branches
would express if the column existed (reading it charitably as correlated with
the outer invoice); it is unreachable. -/
def list_invoices_status_filter (st : Store) (tenantId : ℕ) (statusQ : Option String)
    (today : Date) : Except ApiError (List Invoice) :=
  let base := st.invoices.filter (fun i => i.tenantId == tenantId)
  match statusQ with
  | none => .ok base
  | some s =>
    if s == "Paid" then
      match receiptAllocationMoneyColumn "amount" with
      | none => .error (.attributeError
          "type object ReceiptAllocation has no attribute amount")
      | some col =>
        .ok (base.filter (fun i =>
          ((st.allocations.filter (fun a => a.invoiceId == i.id)).map col).sum ≥ i.total))
    else if s == "Overdue" then
      match receiptAllocationMoneyColumn "amount" with
      | none => .error (.attributeError
          "type object ReceiptAllocation has no attribute amount")
      | some col =>
        .ok (base.filter (fun i =>
          !(((st.allocations.filter (fun a => a.invoiceId == i.id)).map col).sum ≥ i.total)
          && dateLt i.dueDate today))
    else if s == "Pending" then
      match receiptAllocationMoneyColumn "amount" with
      | none => .error (.attributeError
          "type object ReceiptAllocation has no attribute amount")
      | some col =>
        .ok (base.filter (fun i =>
          !(((st.allocations.filter (fun a => a.invoiceId == i.id)).map col).sum ≥ i.total)
          && !dateLt i.dueDate today))
    else .ok base

/-! ## Credit note issuer (`app/api/v1/endpoints/credit_notes.py`) -/

/-- `CreditNoteCreate` payload. -/
structure CreditNoteCreatePayload where
  creditNoteId : Option String
  creditNoteDate : Date
  customerId : ℕ
  invoiceId : Option ℕ
  amount : ℚ
  gstRate : ℚ
  notes : Option String
deriving DecidableEq, Repr

/-- `gst_amount = Decimal(amount) * (Decimal(gstRate) / 100)` — computed in
`Decimal`, NOT rounded (`credit_notes.py` lines 218 and 250). -/
def creditGstAmount (p : CreditNoteCreatePayload) : ℚ := p.amount * (p.gstRate / 100)

/-- `total_credit = amount + gst_amount` (lines 219 and 253). -/
def creditTotalCredit (p : CreditNoteCreatePayload) : ℚ := p.amount + creditGstAmount p

/-- Credit-note-number resolution (lines 228-247): caller number unique per
tenant (409 otherwise), else `CN-{year}-{count:04d}` with `count` = 1 + the
number of ALL the tenant's existing credit notes. -/
def resolveCreditNoteNumber (st : Store) (tenantId : ℕ) (p : CreditNoteCreatePayload) :
    Except ApiError String :=
  match p.creditNoteId with
  | some cid =>
    if st.creditNotes.any (fun cn =>
        cn.tenantId == tenantId && cn.creditNoteNumber == cid) then
      .error (.conflict "Credit note ID already exists")
    else .ok cid
  | none =>
    .ok ("CN-" ++ toString p.creditNoteDate.year ++ "-"
      ++ pad4 ((st.creditNotes.filter (fun cn => cn.tenantId == tenantId)).length + 1))

/-- `create_credit_note` (`credit_notes.py` lines 165-284): verify the
customer; when an invoice is referenced, verify it and reject the request if
the non-cancelled credits already referencing it plus this note's
`total_credit` strictly exceed the invoice total; resolve the number and
persist the note with status `"Issued"`. -/
def create_credit_note (st : Store) (tenantId _userId : ℕ) (p : CreditNoteCreatePayload) :
    Except ApiError (Store × CreditNote) :=
  match st.customers.find? (fun c => c.id == p.customerId && c.tenantId == tenantId) with
  | none => .error (.validation "Invalid customer")
  | some _customer =>
    let invCheck : Except ApiError Unit :=
      match p.invoiceId with
      | none => .ok ()
      | some iid =>
        match findInvoiceFor st tenantId p.customerId iid with
        | none => .error (.validation
            "Invalid invoice or invoice does not belong to this customer")
        | some inv =>
          let existing_credits := sumNonCancelledCredits st iid
          if inv.total < existing_credits + creditTotalCredit p then
            .error (.validation "Total credits would exceed invoice total")
          else .ok ()
    match invCheck with
    | .error e => .error e
    | .ok _ =>
      match resolveCreditNoteNumber st tenantId p with
      | .error e => .error e
      | .ok credit_note_number =>
        let cn : CreditNote :=
          { id := st.nextId
            tenantId := tenantId
            creditNoteNumber := credit_note_number
            creditNoteDate := p.creditNoteDate
            customerId := p.customerId
            invoiceId := p.invoiceId
            amount := p.amount
            gstRate := p.gstRate
            gstAmount := creditGstAmount p
            totalCredit := creditTotalCredit p
            status := "Issued" }
        .ok ({ st with creditNotes := st.creditNotes ++ [cn], nextId := st.nextId + 1 }, cn)

/-! ## Next-number preview (`app/api/v1/endpoints/helpers.py`) -/

/-- `ORDER BY receipt_number DESC ... first()`: the lexicographically
greatest string of a list. -/
def maxStringOf (l : List String) : Option String :=
  l.foldl (fun acc s =>
    match acc with
    | none => some s
    | some m => if m < s then some s else some m) none

/-- Parse the `-`-separated numeric suffix of an identifier and add one;
`int()` failure or a missing match falls back to sequence 1 (the
`try/except` of `helpers.py`). -/
def nextSeqFromNumber (n : Option String) : ℕ :=
  match n with
  | none => 1
  | some s =>
    match (s.splitOn "-").getLast? with
    | none => 1
    | some last =>
      match last.toNat? with
      | none => 1
      | some k => k + 1

/-- `get_next_receipt_number` (`helpers.py` lines 64-95): find the tenant's
lexicographically greatest receipt number matching `RCT-{current_year}-%`,
parse its numeric suffix, add one (1 if none matches), and format
`RCT-{current_year}-{sequence:04d}` — read-only preview. -/
def get_next_receipt_number (st : Store) (tenantId : ℕ) (currentYear : ℤ) : String :=
  let prefixStr := "RCT-" ++ toString currentYear ++ "-"
  let matching := (st.receipts.filter (fun r =>
    r.tenantId == tenantId && prefixStr.isPrefixOf r.receiptNumber)).map
      (fun r => r.receiptNumber)
  "RCT-" ++ toString currentYear ++ "-" ++ pad4 (nextSeqFromNumber (maxStringOf matching))

/-! ## Run helpers

Each handler runs in one transaction: on success the returned store is the
committed state, on any error the transaction is rolled back and the store is
unchanged. -/

/-- The store after a `create_receipt` call (unchanged when the call fails). -/
def afterReceipt (st : Store) (tenantId userId now : ℕ) (p : ReceiptCreatePayload) : Store :=
  match create_receipt st tenantId userId now p with
  | .ok (st', _) => st'
  | .error _ => st

/-- The store after a `create_invoice` call (unchanged when the call fails). -/
def afterCreateInvoice (st : Store) (tenantId userId now : ℕ) (p : InvoiceCreatePayload) :
    Store :=
  match create_invoice st tenantId userId now p with
  | .ok (st', _) => st'
  | .error _ => st

/-- The invoice row persisted by a successful `create_invoice` call. -/
def createdInvoice (st : Store) (tenantId userId now : ℕ) (p : InvoiceCreatePayload) :
    Option Invoice :=
  (create_invoice st tenantId userId now p).toOption.map (fun pr => pr.2)

/-- Per-receipt invariant: every receipt's allocations sum to at most its
amount (spec §8). -/
def receiptInvariant (st : Store) : Prop :=
  ∀ r ∈ st.receipts,
    ((st.allocations.filter (fun a => a.receiptId == r.id)).map
      (fun a => a.allocatedAmount)).sum ≤ r.amount

instance (st : Store) : Decidable (receiptInvariant st) := by
  unfold receiptInvariant; infer_instance

/-! ## Concrete fixtures used by witnesses and counterexamples -/

/-- A tenant-1 customer. -/
def demoCustomer : Customer := { id := 10, tenantId := 1, name := "Acme" }

/-- A tenant-1 invoice of total 150 with no allocations yet. -/
def demoInvoice : Invoice :=
  { id := 100, tenantId := 1, invoiceNumber := "INV-2025-0001",
    invoiceDate := ⟨2025, 1, 5⟩, dueDate := ⟨2025, 12, 31⟩, customerId := 10,
    subtotal := 150, taxTotal := 0, total := 150, status := "draft", updatedAt := 0 }

/-- A minimal store: one customer, one service type, one open invoice. -/
def demoStore : Store :=
  { customers := [demoCustomer], serviceTypes := [{ id := 20, tenantId := 1 }],
    invoices := [demoInvoice], lineItems := [], receipts := [], allocations := [],
    creditNotes := [], nextId := 200 }

/-- A receipt request referencing the SAME invoice twice, each allocation
within the outstanding amount but jointly exceeding it. -/
def dupPayload : ReceiptCreatePayload :=
  { receiptId := none, receiptDate := ⟨2025, 3, 10⟩, customerId := 10,
    paymentMethod := "cash", amountReceived := 200,
    allocations := [⟨100, 100⟩, ⟨100, 100⟩], notes := none }

/-- A pre-existing receipt numbered in the 2024 pattern. -/
def oldReceipt : Receipt :=
  { id := 50, tenantId := 1, receiptNumber := "RCT-2024-0005",
    receiptDate := ⟨2024, 6, 1⟩, customerId := 10, paymentMethod := "cash",
    amount := 500, status := "Completed" }

/-- `demoStore` plus one receipt from 2024 (no 2025-pattern receipts). -/
def c9Store : Store := { demoStore with receipts := [oldReceipt] }

/-- A receipt request with auto-generated number dated in 2025. -/
def c9Payload : ReceiptCreatePayload :=
  { receiptId := none, receiptDate := ⟨2025, 3, 10⟩, customerId := 10,
    paymentMethod := "cash", amountReceived := 100,
    allocations := [⟨100, 100⟩], notes := none }

/-- quantity 1.25 × rate 0.10 at 18% tax: raw amount 0.125, raw tax 0.0225,
raw total 0.1475 — rounding the raw total gives 0.15 while the rounded parts
sum to 0.12 + 0.02 = 0.14. -/
def cexLineItem : LineItemCreate :=
  { serviceType := 20, quantity := 5/4, rate := 1/10, taxRate := 18 }

/-- One line item qty 2 × rate 100 @ 18% tax. -/
def rtLineItem : LineItemCreate :=
  { serviceType := 20, quantity := 2, rate := 100, taxRate := 18 }

/-- The round-trip payload of spec §8: one line item qty 2 × rate 100 @ 18%. -/
def rtPayload : InvoiceCreatePayload :=
  { invoiceNumber := none, invoiceDate := ⟨2025, 2, 1⟩, customerId := 10,
    dueDate := ⟨2025, 3, 1⟩, lineItems := [rtLineItem], notes := none }

/-- An invoice payload whose single line item triggers the rounding-order
discrepancy. -/
def cexPayload : InvoiceCreatePayload :=
  { invoiceNumber := none, invoiceDate := ⟨2025, 2, 1⟩, customerId := 10,
    dueDate := ⟨2025, 3, 1⟩, lineItems := [cexLineItem], notes := none }

/-- A fully allocated invoice: total 236, with 236 already allocated. -/
def paidInvoice : Invoice :=
  { id := 110, tenantId := 1, invoiceNumber := "INV-2025-0002",
    invoiceDate := ⟨2025, 1, 1⟩, dueDate := ⟨2025, 2, 1⟩, customerId := 10,
    subtotal := 200, taxTotal := 36, total := 236, status := "draft", updatedAt := 0 }

/-- The allocation fully paying `paidInvoice`. -/
def paidAlloc : ReceiptAllocation :=
  { id := 60, tenantId := 1, receiptId := 50, invoiceId := 110, allocatedAmount := 236 }

/-- A store holding the fully paid invoice. -/
def paidStore : Store :=
  { customers := [demoCustomer], serviceTypes := [{ id := 20, tenantId := 1 }],
    invoices := [paidInvoice], lineItems := [], receipts := [oldReceipt],
    allocations := [paidAlloc], creditNotes := [], nextId := 300 }

/-- A request allocating 1.00 to the already fully paid invoice (spec §8
scenario C). -/
def onePayload : ReceiptCreatePayload :=
  { receiptId := none, receiptDate := ⟨2025, 3, 10⟩, customerId := 10,
    paymentMethod := "cash", amountReceived := 1,
    allocations := [⟨110, 1⟩], notes := none }

/-- A large open invoice for the over-allocation-of-the-receipt scenario. -/
def bigInvoice : Invoice :=
  { id := 101, tenantId := 1, invoiceNumber := "INV-2025-0003",
    invoiceDate := ⟨2025, 1, 6⟩, dueDate := ⟨2025, 12, 31⟩, customerId := 10,
    subtotal := 1000, taxTotal := 0, total := 1000, status := "draft", updatedAt := 0 }

/-- `demoStore` with the large invoice added. -/
def bigStore : Store := { demoStore with invoices := [demoInvoice, bigInvoice] }

/-- amountReceived 500 but allocations totalling 600 (spec §8 scenario D). -/
def overPayload : ReceiptCreatePayload :=
  { receiptId := none, receiptDate := ⟨2025, 3, 10⟩, customerId := 10,
    paymentMethod := "cash", amountReceived := 500,
    allocations := [⟨101, 600⟩], notes := none }

/-- An invoice of total 1000 against which credit notes are issued. -/
def creditInvoice : Invoice :=
  { id := 120, tenantId := 1, invoiceNumber := "INV-2025-0004",
    invoiceDate := ⟨2025, 1, 7⟩, dueDate := ⟨2025, 12, 31⟩, customerId := 10,
    subtotal := 1000, taxTotal := 0, total := 1000, status := "draft", updatedAt := 0 }

/-- An issued credit note of 700 against `creditInvoice`. -/
def issuedCredit : CreditNote :=
  { id := 70, tenantId := 1, creditNoteNumber := "CN-2025-0001",
    creditNoteDate := ⟨2025, 2, 1⟩, customerId := 10, invoiceId := some 120,
    amount := 700, gstRate := 0, gstAmount := 0, totalCredit := 700, status := "Issued" }

/-- A CANCELLED credit note of 500 against `creditInvoice` (must not count). -/
def cancelledCredit : CreditNote :=
  { id := 71, tenantId := 1, creditNoteNumber := "CN-2025-0002",
    creditNoteDate := ⟨2025, 2, 2⟩, customerId := 10, invoiceId := some 120,
    amount := 500, gstRate := 0, gstAmount := 0, totalCredit := 500, status := "Cancelled" }

/-- Store for the credit-note boundary scenario (spec §8 scenario E). -/
def creditStore : Store :=
  { customers := [demoCustomer], serviceTypes := [{ id := 20, tenantId := 1 }],
    invoices := [creditInvoice], lineItems := [], receipts := [],
    allocations := [], creditNotes := [issuedCredit, cancelledCredit], nextId := 400 }

/-- A new credit note of 400 (GST 0) against `creditInvoice`: 700+400 > 1000. -/
def cn400 : CreditNoteCreatePayload :=
  { creditNoteId := none, creditNoteDate := ⟨2025, 5, 1⟩, customerId := 10,
    invoiceId := some 120, amount := 400, gstRate := 0, notes := none }

/-- A new credit note of 300 (GST 0): 700+300 = 1000, exactly at the boundary. -/
def cn300 : CreditNoteCreatePayload :=
  { creditNoteId := none, creditNoteDate := ⟨2025, 5, 1⟩, customerId := 10,
    invoiceId := some 120, amount := 300, gstRate := 0, notes := none }

/-! ## Lemmas about the receipt allocator -/

theorem mkAllocations_receiptId (tenantId receiptId : ℕ) :
    ∀ (k : ℕ) (l : List AllocationCreate) (a : ReceiptAllocation),
      a ∈ mkAllocations tenantId receiptId k l → a.receiptId = receiptId := by
  intro k l
  induction l generalizing k with
  | nil => intro a ha; simp [mkAllocations] at ha
  | cons x rest ih =>
    intro a ha
    simp only [mkAllocations, List.mem_cons] at ha
    rcases ha with rfl | ha
    · rfl
    · exact ih (k + 1) a ha

theorem mkAllocations_sum (tenantId receiptId : ℕ) :
    ∀ (k : ℕ) (l : List AllocationCreate),
      ((mkAllocations tenantId receiptId k l).map (fun a => a.allocatedAmount)).sum
        = (l.map (fun a => a.amountAllocated)).sum := by
  intro k l
  induction l generalizing k with
  | nil => simp [mkAllocations]
  | cons x rest ih => simp [mkAllocations, ih]

theorem validateAllocations_ok_sum {st : Store} {tenantId customerId : ℕ}
    {l : List AllocationCreate} {t : ℚ}
    (h : validateAllocations st tenantId customerId l = .ok t) :
    t = (l.map (fun a => a.amountAllocated)).sum := by
  induction l generalizing t with
  | nil =>
    simp only [validateAllocations] at h
    cases h
    simp
  | cons x rest ih =>
    simp only [validateAllocations] at h
    split at h
    · cases h
    · split at h
      · cases h
      · split at h
        · cases h
        · split at h
          · cases h
          · rename_i t' hrest
            cases h
            simp [ih hrest]

theorem validateAllocations_error_validation {st : Store} {tenantId customerId : ℕ}
    {l : List AllocationCreate} {e : ApiError}
    (h : validateAllocations st tenantId customerId l = .error e) :
    ∃ msg, e = .validation msg := by
  induction l with
  | nil => simp [validateAllocations] at h
  | cons x rest ih =>
    simp only [validateAllocations] at h
    split at h
    · cases h; exact ⟨_, rfl⟩
    · split at h
      · cases h; exact ⟨_, rfl⟩
      · split at h
        · cases h; exact ⟨_, rfl⟩
        · split at h
          · rename_i hrest
            cases h
            exact ih hrest
          · cases h

/-- Inversion of a successful `create_receipt`: the validations passed and
the new store is the old one plus the receipt row, its allocation rows, and
the touched invoice timestamps. -/
theorem create_receipt_ok_elim {st : Store} {tid uid now : ℕ} {p : ReceiptCreatePayload}
    {st' : Store} {r : Receipt}
    (h : create_receipt st tid uid now p = .ok (st', r)) :
    validateAllocations st tid p.customerId p.allocations =
        .ok ((p.allocations.map (fun a => a.amountAllocated)).sum)
  ∧ ¬ p.amountReceived < (p.allocations.map (fun a => a.amountAllocated)).sum
  ∧ resolveReceiptNumber st tid p = .ok r.receiptNumber
  ∧ r.id = st.nextId ∧ r.amount = p.amountReceived
  ∧ st'.allocations = st.allocations ++ mkAllocations tid st.nextId (st.nextId + 1) p.allocations
  ∧ st'.receipts = st.receipts ++ [r]
  ∧ st'.invoices = st.invoices.map (fun i =>
      if (p.allocations.map (fun a => a.invoiceId)).contains i.id
      then { i with updatedAt := now } else i)
  ∧ st'.lineItems = st.lineItems ∧ st'.creditNotes = st.creditNotes := by
  simp only [create_receipt] at h
  split at h
  · cases h
  · split at h
    · cases h
    · split at h
      · cases h
      · rename_i total hval
        split at h
        · cases h
        · rename_i hle
          split at h
          · cases h
          · rename_i num hnum
            have hsum := validateAllocations_ok_sum hval
            subst hsum
            cases h
            refine ⟨hval, hle, hnum, rfl, rfl, rfl, rfl, rfl, rfl, rfl⟩

/-! ## Claim C2: the settlement status resolver -/

/-- C2: on every read, the settlement status computed from
`total_allocated = sum of allocated_amount over the allocations referencing
the invoice` is `Paid` if `total_allocated ≥ invoice.total`, otherwise
`Overdue` if `invoice.due_date < today`, otherwise `Pending`; exact equality
yields `Paid` even when the due date has passed. -/
theorem claim_C2 (st : Store) (inv : Invoice) (today : Date) :
    (inv.total ≤ sumAllocationsForInvoice st inv.id →
      calculate_invoice_status st inv today = "Paid")
  ∧ (sumAllocationsForInvoice st inv.id < inv.total → dateLt inv.dueDate today = true →
      calculate_invoice_status st inv today = "Overdue")
  ∧ (sumAllocationsForInvoice st inv.id < inv.total → dateLt inv.dueDate today = false →
      calculate_invoice_status st inv today = "Pending")
  ∧ (sumAllocationsForInvoice st inv.id = inv.total → dateLt inv.dueDate today = true →
      calculate_invoice_status st inv today = "Paid") := by
  unfold calculate_invoice_status
  refine ⟨fun h => ?_, fun h1 h2 => ?_, fun h1 h2 => ?_, fun h _ => ?_⟩
  · rw [if_pos h]
  · rw [if_neg (not_le.mpr h1), if_pos h2]
  · rw [if_neg (not_le.mpr h1), if_neg (by simp [h2])]
  · rw [if_pos (le_of_eq h.symm)]

/-- C2 witness: an invoice of total 236 with exactly 236 allocated and a due
date in the past resolves to `Paid`. -/
theorem claim_C2_witness :
    sumAllocationsForInvoice paidStore paidInvoice.id = paidInvoice.total
  ∧ dateLt paidInvoice.dueDate ⟨2026, 1, 1⟩ = true
  ∧ calculate_invoice_status paidStore paidInvoice ⟨2026, 1, 1⟩ = "Paid" :=
  ⟨by with_unfolding_all rfl, by with_unfolding_all rfl,
    (claim_C2 paidStore paidInvoice ⟨2026, 1, 1⟩).2.2.2
      (by with_unfolding_all rfl) (by with_unfolding_all rfl)⟩

/-! ## Claim C7: the status filter of `list_invoices` -/

/-- C7: the status filter of `list_invoices` does NOT return the invoices
whose resolver status matches — each of its three branches reads the
nonexistent column `ReceiptAllocation.amount` (the model declares only
`allocated_amount`, which is what the resolver reads), so filtering by any of
the three statuses raises `AttributeError` on every store. -/
theorem claim_C7 :
    receiptAllocationMoneyColumn "amount" = none
  ∧ receiptAllocationMoneyColumn "allocated_amount" = some (fun a => a.allocatedAmount)
  ∧ ∀ (st : Store) (tenantId : ℕ) (today : Date) (s : String),
      s = "Paid" ∨ s = "Overdue" ∨ s = "Pending" →
      list_invoices_status_filter st tenantId (some s) today =
        .error (.attributeError "type object ReceiptAllocation has no attribute amount") := by
  refine ⟨rfl, rfl, fun st tenantId today s hs => ?_⟩
  rcases hs with rfl | rfl | rfl <;> rfl

/-- C7 witness: filtering by `Paid` on the demo store raises the attribute
error instead of returning the filtered invoices. -/
theorem claim_C7_witness :
    list_invoices_status_filter demoStore 1 (some "Paid") ⟨2025, 6, 1⟩ =
      .error (.attributeError "type object ReceiptAllocation has no attribute amount") :=
  claim_C7.2.2 demoStore 1 ⟨2025, 6, 1⟩ "Paid" (Or.inl rfl)

/-! ## Claim C1: the per-invoice allocation cap -/

/-- C1 is refuted: a single schema-valid `createReceipt` request referencing
the same invoice twice passes every validation (the outstanding amount is
recomputed from the stored allocations only, never updated within the
request), succeeds, and leaves the invoice with 200 allocated against a
total of 150. -/
theorem claim_C1_refuted :
    receiptCreateValid ⟨2025, 3, 10⟩ dupPayload = true
  ∧ (create_receipt demoStore 1 1 1 dupPayload).isOk = true
  ∧ demoInvoice.total = 150
  ∧ sumAllocationsForInvoice (afterReceipt demoStore 1 1 1 dupPayload) demoInvoice.id = 200
  ∧ demoInvoice.total
      < sumAllocationsForInvoice (afterReceipt demoStore 1 1 1 dupPayload) demoInvoice.id := by
  refine ⟨by with_unfolding_all rfl, by with_unfolding_all rfl, by with_unfolding_all rfl,
    by with_unfolding_all rfl, ?_⟩
  have h1 : demoInvoice.total = 150 := by with_unfolding_all rfl
  have h2 : sumAllocationsForInvoice (afterReceipt demoStore 1 1 1 dupPayload) demoInvoice.id
      = 200 := by with_unfolding_all rfl
  rw [h1, h2]
  norm_num

/-! ## Lemmas about the invoice totals calculator -/

theorem mkLineItems_invoiceId (tenantId invoiceId : ℕ) :
    ∀ (k : ℕ) (l : List LineItemCreate) (it : InvoiceLineItem),
      it ∈ mkLineItems tenantId invoiceId k l → it.invoiceId = invoiceId := by
  intro k l
  induction l generalizing k with
  | nil => intro it hit; simp [mkLineItems] at hit
  | cons x rest ih =>
    intro it hit
    simp only [mkLineItems, List.mem_cons] at hit
    rcases hit with rfl | hit
    · rfl
    · exact ih (k + 1) it hit

theorem mkLineItems_sum_amount_tax (tenantId invoiceId : ℕ) :
    ∀ (k : ℕ) (l : List LineItemCreate),
      ((mkLineItems tenantId invoiceId k l).map (fun it => it.amount + it.taxAmount)).sum
        = invoiceSubtotal l + invoiceTaxTotal l := by
  intro k l
  induction l generalizing k with
  | nil => simp [mkLineItems, invoiceSubtotal, invoiceTaxTotal]
  | cons x rest ih =>
    simp only [mkLineItems, List.map_cons, List.sum_cons, ih,
      invoiceSubtotal, invoiceTaxTotal, List.map_cons]
    ring

/-- Inversion of a successful `create_invoice`. -/
theorem create_invoice_ok_elim {st : Store} {tid uid now : ℕ} {p : InvoiceCreatePayload}
    {st' : Store} {inv : Invoice}
    (h : create_invoice st tid uid now p = .ok (st', inv)) :
    inv.id = st.nextId
  ∧ inv.subtotal = invoiceSubtotal p.lineItems
  ∧ inv.taxTotal = invoiceTaxTotal p.lineItems
  ∧ inv.total = invoiceSubtotal p.lineItems + invoiceTaxTotal p.lineItems
  ∧ inv.status = "draft"
  ∧ st'.invoices = st.invoices ++ [inv]
  ∧ st'.lineItems = st.lineItems ++ mkLineItems tid st.nextId (st.nextId + 1) p.lineItems
  ∧ st'.allocations = st.allocations
  ∧ st'.receipts = st.receipts
  ∧ st'.creditNotes = st.creditNotes := by
  simp only [create_invoice] at h
  split at h
  · cases h
  · split at h
    · cases h
    · split at h
      · cases h
      · cases h
        refine ⟨rfl, rfl, rfl, rfl, rfl, rfl, rfl, rfl, rfl, rfl⟩

/-- `update_invoice` can never succeed: right after the invoice lookup it
evaluates the nonexistent column `ReceiptAllocation.amount`, raising
`AttributeError`. -/
theorem update_invoice_never_ok (st : Store) (tid iid now : ℕ) (q : InvoiceCreatePayload) :
    ∀ r2, update_invoice st tid iid now q ≠ .ok r2 := by
  intro r2 h
  simp only [update_invoice] at h
  split at h
  · cases h
  · rw [show receiptAllocationMoneyColumn "amount" = none from rfl] at h
    cases h

/-! ## Claim C5: the line-item amounts mapping -/

/-- C5 counterexample: for quantity 1.25 × rate 0.10 at 18% tax the stored
line-item `total` (0.15) differs from `amount + tax_amount`
(0.12 + 0.02 = 0.14), refuting the claimed mapping
`total = amount + tax_amount`. -/
theorem claim_C5_counterexample :
    (calculate_line_item_amounts cexLineItem).total
      ≠ (calculate_line_item_amounts cexLineItem).amount
        + (calculate_line_item_amounts cexLineItem).taxAmount := by
  have h1 : (calculate_line_item_amounts cexLineItem).total = 3/20 := by
    with_unfolding_all rfl
  have h2 : (calculate_line_item_amounts cexLineItem).amount
      + (calculate_line_item_amounts cexLineItem).taxAmount = 7/50 := by
    with_unfolding_all rfl
  rw [h1, h2]
  norm_num

/-- C5 amended: each draft maps to `amount = round(q×r, 2)`,
`tax_amount = round((q×r)×taxRate/100, 2)` (from the unrounded amount) and
`total = round(q×r + (q×r)×taxRate/100, 2)` (a single rounding of the raw
sum, which can differ from `amount + tax_amount`); the invoice for the single
line item {quantity 2, rate 100, taxRate 18} has subtotal 200.00, tax_total
36.00 and total 236.00. -/
theorem claim_C5_amended :
    (∀ li : LineItemCreate,
      (calculate_line_item_amounts li).amount = pyRound2 (li.quantity * li.rate)
      ∧ (calculate_line_item_amounts li).taxAmount
          = pyRound2 (li.quantity * li.rate * (li.taxRate / 100))
      ∧ (calculate_line_item_amounts li).total
          = pyRound2 (li.quantity * li.rate + li.quantity * li.rate * (li.taxRate / 100)))
  ∧ (createdInvoice demoStore 1 1 0 rtPayload).map
      (fun i => (i.subtotal, i.taxTotal, i.total)) = some (200, 36, 236) :=
  ⟨fun li => ⟨rfl, rfl, rfl⟩, by with_unfolding_all rfl⟩

/-! ## Claim C8: the invoice totals invariant -/

/-- C8 counterexample: the invoice created from the single line item
{quantity 1.25, rate 0.10, taxRate 18} stores total 0.14 while its only line
item stores total 0.15, refuting `invoice.total = sum(line_item.total)`. -/
theorem claim_C8_counterexample :
    (createdInvoice demoStore 1 1 0 cexPayload).map (fun i => (i.id, i.total))
      = some (200, 7/50)
  ∧ (((afterCreateInvoice demoStore 1 1 0 cexPayload).lineItems.filter
        (fun li => li.invoiceId == 200)).map (fun li => li.total)).sum = 3/20
  ∧ ((7 : ℚ)/50) ≠ 3/20 := by
  refine ⟨by with_unfolding_all rfl, by with_unfolding_all rfl, by norm_num⟩

/-- C8 amended: every invoice persisted by `create_invoice` satisfies
`total = subtotal + tax_total` and `total` equals the sum over its stored
line items of `amount + tax_amount`; it need NOT equal the sum of the line
items' stored `total` fields (each of those is rounded once from the raw
amount+tax), and `update_invoice` never completes (it raises on the
nonexistent column `ReceiptAllocation.amount`), so created invoices are the
only ones persisted. -/
theorem claim_C8_amended (st : Store) (tid uid now iid : ℕ) (p q : InvoiceCreatePayload)
    (st' : Store) (inv : Invoice)
    (h : create_invoice st tid uid now p = .ok (st', inv))
    (hfresh : ∀ li ∈ st.lineItems, li.invoiceId ≠ st.nextId) :
    inv.total = inv.subtotal + inv.taxTotal
  ∧ inv.total = ((st'.lineItems.filter (fun li => li.invoiceId == inv.id)).map
      (fun li => li.amount + li.taxAmount)).sum
  ∧ ∀ r2, update_invoice st tid iid now q ≠ .ok r2 := by
  obtain ⟨hid, hsub, htax, htot, -, -, hitems, -, -, -⟩ := create_invoice_ok_elim h
  refine ⟨by rw [htot, hsub, htax], ?_, update_invoice_never_ok st tid iid now q⟩
  rw [hitems, hid, List.filter_append, List.map_append, List.sum_append]
  have hold : st.lineItems.filter (fun li => li.invoiceId == st.nextId) = [] := by
    apply List.filter_eq_nil_iff.mpr
    intro li hli
    simpa using hfresh li hli
  have hnew : (mkLineItems tid st.nextId (st.nextId + 1) p.lineItems).filter
      (fun li => li.invoiceId == st.nextId)
      = mkLineItems tid st.nextId (st.nextId + 1) p.lineItems := by
    apply List.filter_eq_self.mpr
    intro li hli
    simp [mkLineItems_invoiceId tid st.nextId (st.nextId + 1) p.lineItems li hli]
  rw [hold, hnew, mkLineItems_sum_amount_tax, htot]
  simp

/-- C8 witness: the round-trip invoice satisfies the amended invariants. -/
theorem claim_C8_witness :
    ∃ st' inv, create_invoice demoStore 1 1 0 rtPayload = .ok (st', inv)
      ∧ (inv.total = inv.subtotal + inv.taxTotal
        ∧ inv.total = ((st'.lineItems.filter (fun li => li.invoiceId == inv.id)).map
            (fun li => li.amount + li.taxAmount)).sum
        ∧ ∀ r2, update_invoice demoStore 1 100 0 rtPayload ≠ .ok r2) :=
  ⟨_, _, rfl,
    claim_C8_amended demoStore 1 1 0 100 rtPayload rtPayload _ _ rfl
      (by simp [demoStore])⟩

/-! ## Claim C3: allocations bounded by the receipt amount -/

/-- When the payload's allocations sum past `amountReceived`, `create_receipt`
fails with some `ValidationError` (whichever check fires first on the path to
the total check is itself a 400). -/
theorem create_receipt_error_of_overalloc {st : Store} {tid uid now : ℕ}
    {p : ReceiptCreatePayload}
    (hover : p.amountReceived < (p.allocations.map (fun a => a.amountAllocated)).sum) :
    ∃ msg, create_receipt st tid uid now p = .error (.validation msg) := by
  simp only [create_receipt]
  split
  · exact ⟨_, rfl⟩
  · split
    · exact ⟨_, rfl⟩
    · split
      · rename_i e hval
        obtain ⟨msg, rfl⟩ := validateAllocations_error_validation hval
        exact ⟨msg, rfl⟩
      · rename_i t hval
        obtain rfl := validateAllocations_ok_sum hval
        rw [if_pos hover]
        exact ⟨_, rfl⟩

/-- C3: a request whose allocations sum exceeds `amountReceived` fails with a
`ValidationError` and persists nothing; and `create_receipt` preserves the
invariant that every receipt's allocations sum to at most its amount. -/
theorem claim_C3 (st : Store) (tid uid now : ℕ) (p : ReceiptCreatePayload) :
    (p.amountReceived < (p.allocations.map (fun a => a.amountAllocated)).sum →
      (∃ msg, create_receipt st tid uid now p = .error (.validation msg))
      ∧ afterReceipt st tid uid now p = st)
  ∧ ((∀ a ∈ st.allocations, a.receiptId ≠ st.nextId) →
      (∀ r ∈ st.receipts, r.id ≠ st.nextId) →
      receiptInvariant st →
      receiptInvariant (afterReceipt st tid uid now p)) := by
  constructor
  · intro hover
    obtain ⟨msg, hmsg⟩ := @create_receipt_error_of_overalloc st tid uid now p hover
    exact ⟨⟨msg, hmsg⟩, by simp only [afterReceipt]; rw [hmsg]⟩
  · intro hfreshA hfreshR hInv
    cases hE : create_receipt st tid uid now p with
    | error e =>
      simpa only [afterReceipt, hE] using hInv
    | ok pr =>
      obtain ⟨st', r⟩ := pr
      obtain ⟨hval, hle, -, hrid, hramount, hallocs, hreceipts, -, -, -⟩ :=
        create_receipt_ok_elim hE
      simp only [afterReceipt, hE]
      intro rr hrr
      rw [hreceipts] at hrr
      rw [hallocs, List.filter_append, List.map_append, List.sum_append]
      rcases List.mem_append.mp hrr with hold | hnew
      · have hnil : (mkAllocations tid st.nextId (st.nextId + 1) p.allocations).filter
            (fun a => a.receiptId == rr.id) = [] := by
          apply List.filter_eq_nil_iff.mpr
          intro a ha
          have hid := mkAllocations_receiptId tid st.nextId (st.nextId + 1) p.allocations a ha
          simp only [hid, beq_iff_eq]
          exact fun hc => hfreshR rr hold hc.symm
        rw [hnil]
        simpa using hInv rr hold
      · have hr : rr = r := by simpa using hnew
        subst hr
        have hnil : st.allocations.filter (fun a => a.receiptId == rr.id) = [] := by
          apply List.filter_eq_nil_iff.mpr
          intro a ha
          simp only [beq_iff_eq]
          rw [hrid]
          exact hfreshA a ha
        have hall : (mkAllocations tid st.nextId (st.nextId + 1) p.allocations).filter
            (fun a => a.receiptId == rr.id)
            = mkAllocations tid st.nextId (st.nextId + 1) p.allocations := by
          apply List.filter_eq_self.mpr
          intro a ha
          have hid := mkAllocations_receiptId tid st.nextId (st.nextId + 1) p.allocations a ha
          simp [hid, hrid]
        rw [hnil, hall, mkAllocations_sum, hramount]
        simpa using not_lt.mp hle

/-- C3 witness: the spec §8 scenario D request (amountReceived 500,
allocations totalling 600) fails with a `ValidationError` leaving the store
unchanged, and the invariant is preserved on the demo store. -/
theorem claim_C3_witness :
    ((500 : ℚ) < (overPayload.allocations.map (fun a => a.amountAllocated)).sum)
  ∧ (∃ msg, create_receipt bigStore 1 1 1 overPayload = .error (.validation msg))
  ∧ afterReceipt bigStore 1 1 1 overPayload = bigStore
  ∧ receiptInvariant (afterReceipt demoStore 1 1 1 dupPayload) := by
  have hover : overPayload.amountReceived
      < (overPayload.allocations.map (fun a => a.amountAllocated)).sum := by
    have : (overPayload.allocations.map (fun a => a.amountAllocated)).sum = 600 := by
      with_unfolding_all rfl
    rw [this]
    norm_num [overPayload]
  have h1 := (claim_C3 bigStore 1 1 1 overPayload).1 hover
  have h2 := (claim_C3 demoStore 1 1 1 dupPayload).2
    (by simp [demoStore]) (by simp [demoStore])
    (by intro r hr; simp [demoStore] at hr)
  exact ⟨by simpa [overPayload] using hover, h1.1, h1.2, h2⟩

/-! ## Claim C4: outstanding-amount validation -/

/-- If some allocation of the batch targets an invoice whose outstanding
amount is ≤ 0 or smaller than the requested amount, the validation loop
fails with one of the two corresponding `ValidationError` messages. -/
theorem validateAllocations_error_of_bad {st : Store} {tid cid : ℕ}
    {l : List AllocationCreate} {a : AllocationCreate} {inv : Invoice}
    (hres : ∀ b ∈ l, (findInvoiceFor st tid cid b.invoiceId).isSome = true)
    (hmem : a ∈ l)
    (hinv : findInvoiceFor st tid cid a.invoiceId = some inv)
    (hbad : inv.total - sumAllocationsForInvoice st a.invoiceId ≤ 0
          ∨ inv.total - sumAllocationsForInvoice st a.invoiceId < a.amountAllocated) :
    ∃ inv2 : Invoice,
      validateAllocations st tid cid l =
          .error (.validation ("Invoice " ++ inv2.invoiceNumber ++ " is already fully paid"))
      ∨ validateAllocations st tid cid l =
          .error (.validation
            ("Allocation amount exceeds outstanding amount for invoice "
              ++ inv2.invoiceNumber)) := by
  induction l with
  | nil => cases hmem
  | cons x rest ih =>
    obtain ⟨invx, hinvx⟩ :=
      Option.isSome_iff_exists.mp (hres x (List.mem_cons_self x rest))
    simp only [validateAllocations, hinvx]
    by_cases h1 : invx.total - sumAllocationsForInvoice st x.invoiceId ≤ 0
    · rw [if_pos h1]; exact ⟨invx, Or.inl rfl⟩
    · rw [if_neg h1]
      by_cases h2 : invx.total - sumAllocationsForInvoice st x.invoiceId < x.amountAllocated
      · rw [if_pos h2]; exact ⟨invx, Or.inr rfl⟩
      · rw [if_neg h2]
        rcases List.mem_cons.mp hmem with rfl | hrest
        · rw [hinvx] at hinv
          cases hinv
          rcases hbad with hb | hb
          · exact absurd hb h1
          · exact absurd hb h2
        · obtain ⟨inv2, hd⟩ :=
            ih (fun b hb => hres b (List.mem_cons_of_mem _ hb)) hrest
          rcases hd with hmsg | hmsg
          · rw [hmsg]; exact ⟨inv2, Or.inl rfl⟩
          · rw [hmsg]; exact ⟨inv2, Or.inr rfl⟩

/-- When the customer resolves and every referenced invoice resolves, an
error of the validation loop is the error of the whole `create_receipt`. -/
theorem create_receipt_propagates_validate_error {st : Store} {tid uid now : ℕ}
    {p : ReceiptCreatePayload} {e : ApiError}
    (hcust : (st.customers.find? (fun c =>
      c.id == p.customerId && c.tenantId == tid)).isSome = true)
    (hres : ∀ b ∈ p.allocations,
      (findInvoiceFor st tid p.customerId b.invoiceId).isSome = true)
    (hval : validateAllocations st tid p.customerId p.allocations = .error e) :
    create_receipt st tid uid now p = .error e := by
  obtain ⟨c, hc⟩ := Option.isSome_iff_exists.mp hcust
  have hany : (p.allocations.any (fun b =>
      (findInvoiceFor st tid p.customerId b.invoiceId).isNone)) = false := by
    rw [List.any_eq_false]
    intro b hb
    simp [Option.isNone_iff_eq_none]
    exact Option.isSome_iff_ne_none.mp (hres b hb)
  simp only [create_receipt]
  rw [hc]
  simp only [hany, Bool.false_eq_true, if_false]
  rw [hval]

/-- C4: with a valid customer and valid invoice references, an allocation
against an invoice with `outstanding = total − sum of existing allocations`
either ≤ 0 or smaller than the allocated amount makes the whole
`create_receipt` fail with the "already fully paid" or the "exceeds
outstanding amount" `ValidationError`, persisting nothing. -/
theorem claim_C4 (st : Store) (tid uid now : ℕ) (p : ReceiptCreatePayload)
    (a : AllocationCreate) (inv : Invoice)
    (hcust : (st.customers.find? (fun c =>
      c.id == p.customerId && c.tenantId == tid)).isSome = true)
    (hres : ∀ b ∈ p.allocations,
      (findInvoiceFor st tid p.customerId b.invoiceId).isSome = true)
    (hmem : a ∈ p.allocations)
    (hinv : findInvoiceFor st tid p.customerId a.invoiceId = some inv)
    (hbad : inv.total - sumAllocationsForInvoice st a.invoiceId ≤ 0
          ∨ inv.total - sumAllocationsForInvoice st a.invoiceId < a.amountAllocated) :
    (∃ inv2 : Invoice,
      create_receipt st tid uid now p =
          .error (.validation ("Invoice " ++ inv2.invoiceNumber ++ " is already fully paid"))
      ∨ create_receipt st tid uid now p =
          .error (.validation
            ("Allocation amount exceeds outstanding amount for invoice "
              ++ inv2.invoiceNumber)))
  ∧ afterReceipt st tid uid now p = st := by
  obtain ⟨inv2, hd⟩ := validateAllocations_error_of_bad hres hmem hinv hbad
  rcases hd with hmsg | hmsg
  · have hcr := @create_receipt_propagates_validate_error st tid uid now p _ hcust hres hmsg
    exact ⟨⟨inv2, Or.inl hcr⟩, by simp only [afterReceipt]; rw [hcr]⟩
  · have hcr := @create_receipt_propagates_validate_error st tid uid now p _ hcust hres hmsg
    exact ⟨⟨inv2, Or.inr hcr⟩, by simp only [afterReceipt]; rw [hcr]⟩

/-- C4 witness: spec §8 scenario C — allocating 1.00 to an invoice of total
236 that already has 236 allocated fails with a `ValidationError` and leaves
the store unchanged. -/
theorem claim_C4_witness :
    (∃ inv2 : Invoice,
      create_receipt paidStore 1 1 1 onePayload =
          .error (.validation ("Invoice " ++ inv2.invoiceNumber ++ " is already fully paid"))
      ∨ create_receipt paidStore 1 1 1 onePayload =
          .error (.validation
            ("Allocation amount exceeds outstanding amount for invoice "
              ++ inv2.invoiceNumber)))
  ∧ afterReceipt paidStore 1 1 1 onePayload = paidStore := by
  have hbad : paidInvoice.total - sumAllocationsForInvoice paidStore
      (⟨110, 1⟩ : AllocationCreate).invoiceId ≤ 0 := by
    have : sumAllocationsForInvoice paidStore
        (⟨110, 1⟩ : AllocationCreate).invoiceId = 236 := by with_unfolding_all rfl
    rw [this]
    norm_num [paidInvoice]
  exact claim_C4 paidStore 1 1 1 onePayload ⟨110, 1⟩ paidInvoice
    (by with_unfolding_all rfl)
    (by intro b hb; simp [onePayload] at hb; subst hb; with_unfolding_all rfl)
    (by simp [onePayload])
    (by with_unfolding_all rfl)
    (Or.inl hbad)

/-! ## Claim C6: the credit-note limit -/

/-- C6: with a valid customer, a valid referenced invoice and no
caller-supplied number, `createCreditNote` fails with the exceed-invoice
`ValidationError` exactly when the non-cancelled credits already referencing
the invoice plus the new note's `total_credit` (amount + its GST amount)
strictly exceed the invoice total; at or below the boundary the note is
created with status `"Issued"`.  Cancelled notes are excluded by the
`status != 'Cancelled'` filter inside `sumNonCancelledCredits`. -/
theorem claim_C6 (st : Store) (tid uid : ℕ) (p : CreditNoteCreatePayload)
    (iid : ℕ) (inv : Invoice)
    (hcust : (st.customers.find? (fun c =>
      c.id == p.customerId && c.tenantId == tid)).isSome = true)
    (hiid : p.invoiceId = some iid)
    (hinv : findInvoiceFor st tid p.customerId iid = some inv)
    (hnum : p.creditNoteId = none) :
    (inv.total < sumNonCancelledCredits st iid + creditTotalCredit p →
      create_credit_note st tid uid p =
        .error (.validation "Total credits would exceed invoice total"))
  ∧ (sumNonCancelledCredits st iid + creditTotalCredit p ≤ inv.total →
      ∃ st' cn, create_credit_note st tid uid p = .ok (st', cn)
        ∧ cn.totalCredit = creditTotalCredit p
        ∧ cn.invoiceId = some iid
        ∧ cn.status = "Issued") := by
  obtain ⟨c, hc⟩ := Option.isSome_iff_exists.mp hcust
  constructor
  · intro hover
    simp only [create_credit_note, hc, hiid, hinv]
    rw [if_pos hover]
  · intro hle
    simp only [create_credit_note, hc, hiid, hinv]
    rw [if_neg (not_lt.mpr hle)]
    simp only [resolveCreditNoteNumber, hnum]
    exact ⟨_, _, rfl, rfl, rfl, rfl⟩

/-- C6 witness: spec §8 scenario E — invoice total 1000 with 700 already
issued (a cancelled 500 note being ignored): a further 400 is rejected,
while 300 is accepted exactly at the boundary. -/
theorem claim_C6_witness :
    sumNonCancelledCredits creditStore 120 = 700
  ∧ create_credit_note creditStore 1 1 cn400 =
      .error (.validation "Total credits would exceed invoice total")
  ∧ (∃ st' cn, create_credit_note creditStore 1 1 cn300 = .ok (st', cn)
      ∧ cn.totalCredit = creditTotalCredit cn300
      ∧ cn.invoiceId = some 120
      ∧ cn.status = "Issued") := by
  have hsum : sumNonCancelledCredits creditStore 120 = 700 := by with_unfolding_all rfl
  have h400 := (claim_C6 creditStore 1 1 cn400 120 creditInvoice
      (by with_unfolding_all rfl) rfl (by with_unfolding_all rfl) rfl).1
  have h300 := (claim_C6 creditStore 1 1 cn300 120 creditInvoice
      (by with_unfolding_all rfl) rfl (by with_unfolding_all rfl) rfl).2
  refine ⟨hsum, h400 ?_, h300 ?_⟩
  · have h1 : creditTotalCredit cn400 = 400 := by with_unfolding_all rfl
    have h2 : creditInvoice.total = 1000 := by with_unfolding_all rfl
    rw [hsum, h1, h2]
    norm_num
  · have h1 : creditTotalCredit cn300 = 300 := by with_unfolding_all rfl
    have h2 : creditInvoice.total = 1000 := by with_unfolding_all rfl
    rw [hsum, h1, h2]
    norm_num

/-! ## Claim C9: auto-generated receipt numbers -/

/-- C9 counterexample: tenant 1 owns a single receipt `RCT-2024-0005`. The
claimed sequence for a 2025-dated receipt is `1 + (count of receipts
matching RCT-2025-…) = 1`, i.e. `RCT-2025-0001` — and the preview endpoint
indeed returns that — but `create_receipt` persists `RCT-2025-0002` (it
counts ALL of the tenant's receipts, ignoring the year pattern), so the
claim is false for the persisted number and the preview does not match it. -/
theorem claim_C9_counterexample :
    (create_receipt c9Store 1 1 1 c9Payload).toOption.map (fun pr => pr.2.receiptNumber)
      = some "RCT-2025-0002"
  ∧ (c9Store.receipts.filter (fun r =>
      r.tenantId == 1 && ("RCT-2025-" : String).isPrefixOf r.receiptNumber)).length + 1 = 1
  ∧ get_next_receipt_number c9Store 1 2025 = "RCT-2025-0001"
  ∧ "RCT-2025-0002" ≠ "RCT-2025-0001" := by
  refine ⟨by with_unfolding_all rfl, by with_unfolding_all rfl,
    by with_unfolding_all rfl, by decide⟩

/-- C9 amended: when `create_receipt` is called without a caller-supplied
number, the persisted `receipt_number` is `RCT-{year}-{sequence:04d}` where
`year` comes from the receipt date but `sequence` is 1 + the count of ALL of
the tenant's existing receipts, regardless of any year pattern; the preview
endpoint instead derives its sequence from the numeric suffix of the
tenant's lexicographically greatest receipt number matching the current
year's pattern, so the two can disagree. -/
theorem claim_C9_amended (st : Store) (tid uid now : ℕ) (p : ReceiptCreatePayload)
    (st' : Store) (r : Receipt)
    (h : create_receipt st tid uid now p = .ok (st', r))
    (hauto : p.receiptId = none) :
    r.receiptNumber = "RCT-" ++ toString p.receiptDate.year ++ "-"
      ++ pad4 ((st.receipts.filter (fun x => x.tenantId == tid)).length + 1) := by
  obtain ⟨-, -, hnum, -⟩ := create_receipt_ok_elim h
  simp only [resolveReceiptNumber, hauto] at hnum
  exact (Except.ok.inj hnum).symm

/-- C9 witness: on the `c9Store` fixture the persisted number follows the
count-of-all-receipts formula. -/
theorem claim_C9_witness :
    ∃ st' r, create_receipt c9Store 1 1 1 c9Payload = .ok (st', r)
      ∧ r.receiptNumber = "RCT-" ++ toString c9Payload.receiptDate.year ++ "-"
          ++ pad4 ((c9Store.receipts.filter (fun x => x.tenantId == 1)).length + 1) := by
  cases hE : create_receipt c9Store 1 1 1 c9Payload with
  | error e =>
    have hok : (create_receipt c9Store 1 1 1 c9Payload).isOk = true := by
      with_unfolding_all rfl
    rw [hE] at hok
    cases hok
  | ok pr =>
    obtain ⟨st', r⟩ := pr
    exact ⟨st', r, rfl, claim_C9_amended c9Store 1 1 1 c9Payload st' r hE rfl⟩

/-! ## Claim C10: the stored status column is never written -/

/-- Inversion of a successful `delete_invoice`. -/
theorem delete_invoice_ok_elim {st : Store} {tid iid : ℕ} {st' : Store}
    (h : delete_invoice st tid iid = .ok st') :
    st'.invoices = st.invoices.filter (fun i => i.id != iid) := by
  simp only [delete_invoice] at h
  split at h
  · cases h
  · split at h
    · cases h
    · split at h
      · cases h
      · cases h
        rfl

/-- C10: no invoice operation writes the stored `status` column.
`create_receipt` only touches `updated_at` (each invoice keeps its id and
status); `create_invoice` adds its new row with the model default `"draft"`
and leaves every other row's status alone; `update_invoice` never succeeds
at all (it raises on the nonexistent column before reaching its writes);
`delete_invoice` only removes rows; and the read path's response carries the
resolver's output, which is insensitive to the stored `status` value. -/
theorem claim_C10 (st : Store) (tid uid now iid : ℕ) (p : ReceiptCreatePayload)
    (q q2 : InvoiceCreatePayload) (inv : Invoice) (s : String) (today : Date) :
    ((afterReceipt st tid uid now p).invoices.map (fun i => (i.id, i.status))
        = st.invoices.map (fun i => (i.id, i.status)))
  ∧ (∀ st' newInv, create_invoice st tid uid now q = .ok (st', newInv) →
      newInv.status = "draft"
      ∧ st'.invoices.map (fun i => (i.id, i.status))
          = st.invoices.map (fun i => (i.id, i.status)) ++ [(newInv.id, "draft")])
  ∧ (∀ r2, update_invoice st tid iid now q2 ≠ .ok r2)
  ∧ (∀ st', delete_invoice st tid iid = .ok st' → ∀ j ∈ st'.invoices, j ∈ st.invoices)
  ∧ (build_invoice_response st inv today).status = calculate_invoice_status st inv today
  ∧ calculate_invoice_status st { inv with status := s } today
      = calculate_invoice_status st inv today := by
  refine ⟨?_, ?_, update_invoice_never_ok st tid iid now q2, ?_, rfl, rfl⟩
  · cases hE : create_receipt st tid uid now p with
    | error e => simp only [afterReceipt, hE]
    | ok pr =>
      obtain ⟨st', r⟩ := pr
      obtain ⟨-, -, -, -, -, -, -, hinvs, -, -⟩ := create_receipt_ok_elim hE
      simp only [afterReceipt, hE, hinvs, List.map_map]
      apply List.map_congr_left
      intro i _
      simp only [Function.comp_apply]
      split <;> rfl
  · intro st' newInv h
    obtain ⟨hid, -, -, -, hstat, hinvs, -, -, -, -⟩ := create_invoice_ok_elim h
    refine ⟨hstat, ?_⟩
    rw [hinvs, List.map_append]
    simp [hstat]
  · intro st' h j hj
    rw [delete_invoice_ok_elim h] at hj
    exact List.mem_of_mem_filter hj

/-- C10 witness: on the demo fixtures — the duplicate-allocation receipt
leaves every invoice's (id, status) pair unchanged, the round-trip invoice is
created with stored status `"draft"`, an update attempt never succeeds, and
the response status equals the resolver's output. -/
theorem claim_C10_witness :
    ((afterReceipt demoStore 1 1 1 dupPayload).invoices.map (fun i => (i.id, i.status))
        = demoStore.invoices.map (fun i => (i.id, i.status)))
  ∧ (∃ st' newInv, create_invoice demoStore 1 1 0 rtPayload = .ok (st', newInv)
      ∧ newInv.status = "draft")
  ∧ (∀ r2, update_invoice demoStore 1 100 0 rtPayload ≠ .ok r2)
  ∧ (build_invoice_response demoStore demoInvoice ⟨2025, 6, 1⟩).status
      = calculate_invoice_status demoStore demoInvoice ⟨2025, 6, 1⟩ := by
  have H := claim_C10 demoStore 1 1 1 100 dupPayload rtPayload rtPayload demoInvoice
    "whatever" ⟨2025, 6, 1⟩
  refine ⟨H.1, ?_, H.2.2.1, H.2.2.2.2.1⟩
  cases hE : create_invoice demoStore 1 1 0 rtPayload with
  | error e =>
    have hok : (create_invoice demoStore 1 1 0 rtPayload).isOk = true := by
      with_unfolding_all rfl
    rw [hE] at hok
    cases hok
  | ok pr =>
    obtain ⟨st', newInv⟩ := pr
    have H0 := claim_C10 demoStore 1 1 0 100 dupPayload rtPayload rtPayload demoInvoice
      "whatever" ⟨2025, 6, 1⟩
    exact ⟨st', newInv, rfl, (H0.2.1 st' newInv hE).1⟩

end Billing
